import Mathlib

/-!
A shallow embedding of `src/chat.py` from the azure-openai-experiments
repository, together with theorems checking the natural-language
specification against it.

The source module, in statement order, is:
1. a module-level interactive loop over `history` (note: the line
   `history = []` carries a stray leading space in the source, so the
   file as committed raises an IndentationError before running; we embed
   the statement sequence as written, modelling the unbound `client` and
   `MODEL_NAME` lookups inside the loop as NameError outcomes);
2. the provider setup block branching on `API_HOST`, which assigns
   `client` and `MODEL_NAME`;
3. a hard-coded one-shot chat-completion request whose reply is printed.

Environment access, console input, and the remote completion endpoint are
modelled explicitly: the environment is an association list, console input
a list of lines, and the endpoint an oracle from requests to
`Except String String` (an error models a raised exception from the HTTP
client; the returned string models `choices[0].message.content`).
-/

/-- A chat message: a dict `\x7b"role": ..., "content": ...\x7d` in the source. -/
structure Message where
  role : String
  content : String
deriving Repr, DecidableEq

def userMsg (c : String) : Message := { role := "user", content := c }

def assistantMsg (c : String) : Message := { role := "assistant", content := c }

/-- The system message prepended on every turn of the interactive loop. -/
def loopSystemMsg : Message :=
  { role := "system", content := "You are a helpful assistant." }

/-- The hard-coded system message of the one-shot request. -/
def oneShotSystemMsg : Message :=
  { role := "system",
    content := "You are a helpful assistant that makes lots of cat references and uses emojis." }

/-- The hard-coded user prompt of the one-shot request. -/
def oneShotUserMsg : Message :=
  { role := "user", content := "Write a haiku about a hungry cat who wants tuna" }

/-- Credential material handed to the OpenAI client constructor. -/
inductive Credential where
  /-- `azure.identity.get_bearer_token_provider(DefaultAzureCredential(), ...)` -/
  | azureBearerToken : Credential
  /-- a plain `api_key=` string -/
  | apiKey (key : String) : Credential
deriving Repr, DecidableEq

/-- The provider configuration produced by the setup block: the client
(base URL and credential) plus `MODEL_NAME`.  `baseUrl = none` models the
OpenAI client default endpoint (no `base_url=` argument). -/
structure ProviderConfig where
  baseUrl : Option String
  credential : Credential
  modelName : String
deriving Repr, DecidableEq

/-- The process environment, as an association list (first binding wins). -/
abbrev Env := List (String × String)

/-- `os.getenv(k)` / `os.environ.get(k)`. -/
def Env.get (env : Env) (k : String) : Option String :=
  (List.find? (fun p => p.1 = k) env).map (fun p => p.2)

/-- `os.getenv(k, d)`. -/
def Env.getD (env : Env) (k d : String) : String :=
  (env.get k).getD d

/-- `os.environ[k]`: raises `KeyError` when the variable is unset. -/
def Env.require (env : Env) (k : String) : Except String String :=
  match env.get k with
  | some v => Except.ok v
  | none => Except.error ("KeyError: " ++ k)

/-- `API_HOST = os.getenv("API_HOST", "github")`. -/
def apiHostOf (env : Env) : String :=
  env.getD "API_HOST" "github"

def githubBaseUrl : String := "https://models.github.ai/inference"

/-- The provider setup block of `chat.py`: branch on `API_HOST` and build
`client` and `MODEL_NAME`.  Errors model uncaught `KeyError`s from
`os.environ[...]`. -/
def setupClient (env : Env) : Except String ProviderConfig :=
  let apiHost := apiHostOf env
  if apiHost = "azure" then do
    let ep ← env.require "AZURE_OPENAI_ENDPOINT"
    let dep ← env.require "AZURE_OPENAI_CHAT_DEPLOYMENT"
    pure { baseUrl := some ep, credential := Credential.azureBearerToken, modelName := dep }
  else if apiHost = "ollama" then do
    let ep ← env.require "OLLAMA_ENDPOINT"
    let m ← env.require "OLLAMA_MODEL"
    pure { baseUrl := some ep, credential := Credential.apiKey "nokeyneeded", modelName := m }
  else if apiHost = "github" then do
    let tok ← env.require "GITHUB_TOKEN"
    pure { baseUrl := some githubBaseUrl, credential := Credential.apiKey tok,
           modelName := env.getD "GITHUB_MODEL" "openai/gpt-4o" }
  else do
    let key ← env.require "OPENAI_KEY"
    let m ← env.require "OPENAI_MODEL"
    pure { baseUrl := none, credential := Credential.apiKey key, modelName := m }

/-- Python whitespace for `str.strip()` (ASCII range). -/
def isPySpace (c : Char) : Bool :=
  c = ' ' || c = '\t' || c = '\n' || c = '\r' || c = Char.ofNat 11 || c = Char.ofNat 12

/-- `str.strip()`. -/
def pyStrip (s : String) : String :=
  String.mk (((s.data.dropWhile isPySpace).reverse.dropWhile isPySpace).reverse)

/-- `str.lower()` (ASCII case mapping). -/
def pyLower (s : String) : String :=
  String.mk (s.data.map Char.toLower)

/-- A chat-completion request as handed to
`client.chat.completions.create`; `none` fields model omitted keyword
arguments (library defaults). -/
structure Request where
  model : String
  temperature : Option Rat
  n : Option Nat
  messages : List Message
deriving Repr, DecidableEq

/-- The remote completion endpoint: an error models a raised exception,
an ok value models `choices[0].message.content` of the response. -/
abbrev Oracle := Request → Except String String

/-- The module-level interpreter state: the (initially unbound) globals
`client` and `MODEL_NAME`, the `history` list, plus observation logs of
the requests issued to the endpoint and the lines printed. -/
structure ModuleState where
  client : Option ProviderConfig
  modelName : Option String
  history : List Message
  requests : List Request
  printed : List String
deriving Repr, DecidableEq

/-- State at module start: no global is bound yet. -/
def initState : ModuleState :=
  { client := none, modelName := none, history := [], requests := [], printed := [] }

/-- Outcome of running a piece of the module: final state and the
uncaught exception, if any (`none` means normal completion). -/
structure RunResult where
  state : ModuleState
  error : Option String
deriving Repr, DecidableEq

def nameErrorClient : String := "NameError: name client is not defined"

def eofError : String := "EOFError"

/-- The request built on a loop turn:
`messages=[\x7b"role":"system",...\x7d] + history` with no explicit
temperature or n. -/
def mkLoopRequest (m : String) (hist : List Message) : Request :=
  { model := m, temperature := none, n := none, messages := loopSystemMsg :: hist }

/-- The interactive `while True` loop at the top of `chat.py`, consuming
one console line per turn.  Faithful to the statement order of the body:
strip the input, break on exit/quit, append the user message to
`history`, call the endpoint (a NameError if `client`/`MODEL_NAME` are
still unbound, as they are at this point of the module), print the reply
and append it as an assistant message.  Running out of input lines models
`input()` raising EOFError. -/
def runLoop (oracle : Oracle) : List String → ModuleState → RunResult
  | [], st => { state := st, error := some eofError }
  | line :: rest, st =>
    let user := pyStrip line
    if pyLower user = "exit" ∨ pyLower user = "quit" then
      { state := st, error := none }
    else
      let hist2 := st.history ++ [userMsg user]
      match st.client, st.modelName with
      | some _, some m =>
        let req := mkLoopRequest m hist2
        match oracle req with
        | Except.ok reply =>
          runLoop oracle rest
            { st with history := hist2 ++ [assistantMsg reply],
                      requests := st.requests ++ [req],
                      printed := st.printed ++ ["bot> " ++ reply] }
        | Except.error e =>
          { state := { st with history := hist2, requests := st.requests ++ [req] },
            error := some e }
      | _, _ =>
        { state := { st with history := hist2 }, error := some nameErrorClient }

/-- The hard-coded one-shot request at the bottom of `chat.py`:
temperature 0.7, n=1, fixed system and user messages. -/
def oneShotRequest (m : String) : Request :=
  { model := m, temperature := some (7 / 10 : Rat), n := some 1,
    messages := [oneShotSystemMsg, oneShotUserMsg] }

/-- The whole module, executed in the statement order of the source:
first the interactive loop (with `client` and `MODEL_NAME` unbound), then
the `API_HOST` setup block, then the one-shot request and the printing of
its reply. -/
def runModule (env : Env) (inputs : List String) (oracle : Oracle) : RunResult :=
  let r := runLoop oracle inputs initState
  match r.error with
  | some _ => r
  | none =>
    match setupClient env with
    | Except.error e => { state := r.state, error := some e }
    | Except.ok cfg =>
      let st := { r.state with client := some cfg, modelName := some cfg.modelName }
      let req := oneShotRequest cfg.modelName
      let st2 := { st with requests := st.requests ++ [req] }
      match oracle req with
      | Except.error e => { state := st2, error := some e }
      | Except.ok reply =>
        { state := { st2 with printed := st2.printed ++
            ["Response from " ++ apiHostOf env ++ ": \n", reply] },
          error := none }

/-! Section: Concrete fixtures used by witnesses and counterexamples -/

def okOracle : Oracle := fun _ => Except.ok "meow"

def failOracle : Oracle := fun _ => Except.error "APIConnectionError"

def envGithubFull : Env :=
  [("GITHUB_TOKEN", "tok123"), ("GITHUB_MODEL", "openai/gpt-4o-mini")]

def cfgStub : ProviderConfig :=
  { baseUrl := some githubBaseUrl, credential := Credential.apiKey "tok123",
    modelName := "mymodel" }

/-- A state in which the globals are bound, as they would be were the
setup block executed before the loop. -/
def readyState : ModuleState :=
  { initState with client := some cfgStub, modelName := some "mymodel" }

def envAzureFull : Env :=
  [("API_HOST", "azure"), ("AZURE_OPENAI_ENDPOINT", "https://aoai.example"),
   ("AZURE_OPENAI_CHAT_DEPLOYMENT", "gpt4-deploy")]

def envOllamaFull : Env :=
  [("API_HOST", "ollama"), ("OLLAMA_ENDPOINT", "http://localhost:11434/v1"),
   ("OLLAMA_MODEL", "llama3.1")]

def envGithubExplicit : Env :=
  [("API_HOST", "github"), ("GITHUB_TOKEN", "ghp-abc"),
   ("GITHUB_MODEL", "openai/gpt-4o-mini")]

def envOpenaiFull : Env :=
  [("API_HOST", "openai.com"), ("OPENAI_KEY", "sk-xyz"), ("OPENAI_MODEL", "gpt-4o")]

example : pyStrip "  hi there \n" = "hi there" := by decide
example : pyLower " QUIT " = " quit " := by decide
example : apiHostOf [] = "github" := by decide
example :
    (runLoop okOracle ["hi", "exit"] readyState).state.history =
      [userMsg "hi", assistantMsg "meow"] := by decide
example : (runModule envGithubFull ["hi"] okOracle).error = some nameErrorClient := by
  decide

/-! Section: Claims -/

/-- Claim C1: the spec describes two independent modes (one-shot versus
interactive loop), exactly one of which runs, the loop only with a fully
constructed client.  The code instead runs an unconditional sequence with
the loop first, before any client exists: the first non-exit input raises
a NameError, and when the first input exits the loop the one-shot request
still fires afterwards in the same execution.  This theorem evaluates the
code at those inputs. -/
theorem c1_modes_are_a_sequence_not_alternatives :
    (runModule envGithubFull ["hi"] okOracle).error = some nameErrorClient ∧
    (runModule envGithubFull ["exit"] okOracle).state.requests =
      [oneShotRequest "openai/gpt-4o-mini"] ∧
    (runModule envGithubFull ["exit"] okOracle).error = none := by
  refine ⟨rfl, rfl, rfl⟩

/-- Claim C4: the spec says the provider configuration is assigned once,
at startup, before any completion request is issued.  In the code the
interactive loop — and hence its completion call — precedes the
assignment of `client` and `MODEL_NAME`: the first loop turn reads the
still-unbound `client` and the program dies with a NameError, no request
ever reaching the endpoint.  This theorem evaluates the code at such an
input. -/
theorem c4_request_attempted_before_config_assigned :
    (runModule envGithubFull ["hello"] okOracle).error = some nameErrorClient ∧
    (runModule envGithubFull ["hello"] okOracle).state.history = [userMsg "hello"] ∧
    (runModule envGithubFull ["hello"] okOracle).state.requests = [] := by
  refine ⟨rfl, rfl, rfl⟩

/-- Claim C2: provider resolution maps each `API_HOST` value to the
(endpoint, credential, model-name) triple of exactly one of the four
providers: azure, ollama, github, and OpenAI.com for any other value. -/
theorem c2_provider_resolution (env : Env) (ep dep tok key omod mdl : String) :
    (env.get "API_HOST" = some "azure" →
      env.get "AZURE_OPENAI_ENDPOINT" = some ep →
      env.get "AZURE_OPENAI_CHAT_DEPLOYMENT" = some dep →
      setupClient env = Except.ok
        { baseUrl := some ep, credential := Credential.azureBearerToken,
          modelName := dep }) ∧
    (env.get "API_HOST" = some "ollama" →
      env.get "OLLAMA_ENDPOINT" = some ep →
      env.get "OLLAMA_MODEL" = some omod →
      setupClient env = Except.ok
        { baseUrl := some ep, credential := Credential.apiKey "nokeyneeded",
          modelName := omod }) ∧
    (env.get "API_HOST" = some "github" →
      env.get "GITHUB_TOKEN" = some tok →
      env.get "GITHUB_MODEL" = some mdl →
      setupClient env = Except.ok
        { baseUrl := some githubBaseUrl, credential := Credential.apiKey tok,
          modelName := mdl }) ∧
    (∀ v, env.get "API_HOST" = some v →
      v ≠ "azure" → v ≠ "ollama" → v ≠ "github" →
      env.get "OPENAI_KEY" = some key →
      env.get "OPENAI_MODEL" = some mdl →
      setupClient env = Except.ok
        { baseUrl := none, credential := Credential.apiKey key, modelName := mdl }) := by
  refine ⟨?_, ?_, ?_, ?_⟩
  · intro h1 h2 h3
    simp [setupClient, apiHostOf, Env.getD, Env.require, h1, h2, h3]
    rfl
  · intro h1 h2 h3
    simp [setupClient, apiHostOf, Env.getD, Env.require, h1, h2, h3]
    rfl
  · intro h1 h2 h3
    simp [setupClient, apiHostOf, Env.getD, Env.require, h1, h2, h3]
  · intro v h1 hv1 hv2 hv3 h2 h3
    simp [setupClient, apiHostOf, Env.getD, Env.require, h1, h2, h3, hv1, hv2, hv3]
    rfl

/-- Witness for C2 at four concrete environments, one per provider. -/
theorem c2_provider_resolution_witness :
    setupClient envAzureFull = Except.ok
      { baseUrl := some "https://aoai.example",
        credential := Credential.azureBearerToken, modelName := "gpt4-deploy" } ∧
    setupClient envOllamaFull = Except.ok
      { baseUrl := some "http://localhost:11434/v1",
        credential := Credential.apiKey "nokeyneeded", modelName := "llama3.1" } ∧
    setupClient envGithubExplicit = Except.ok
      { baseUrl := some githubBaseUrl, credential := Credential.apiKey "ghp-abc",
        modelName := "openai/gpt-4o-mini" } ∧
    setupClient envOpenaiFull = Except.ok
      { baseUrl := none, credential := Credential.apiKey "sk-xyz",
        modelName := "gpt-4o" } := by
  refine ⟨?_, ?_, ?_, ?_⟩
  · exact (c2_provider_resolution envAzureFull "https://aoai.example" "gpt4-deploy"
      "" "" "" "").1 rfl rfl rfl
  · exact (c2_provider_resolution envOllamaFull "http://localhost:11434/v1" ""
      "" "" "llama3.1" "").2.1 rfl rfl rfl
  · exact (c2_provider_resolution envGithubExplicit "" "" "ghp-abc" ""
      "" "openai/gpt-4o-mini").2.2.1 rfl rfl rfl
  · exact (c2_provider_resolution envOpenaiFull "" "" "" "sk-xyz"
      "" "gpt-4o").2.2.2 "openai.com" rfl (by decide) (by decide) (by decide) rfl rfl

/-- Claim C8: with `API_HOST` unset the github provider is selected, and
with `GITHUB_MODEL` also unset the model defaults to "openai/gpt-4o"; no
other branch has a model default — each raises a KeyError when its model
variable is unset. -/
theorem c8_defaults (env : Env) (tok ep key : String) :
    (env.get "API_HOST" = none → apiHostOf env = "github") ∧
    (env.get "API_HOST" = none →
      env.get "GITHUB_TOKEN" = some tok →
      env.get "GITHUB_MODEL" = none →
      setupClient env = Except.ok
        { baseUrl := some githubBaseUrl, credential := Credential.apiKey tok,
          modelName := "openai/gpt-4o" }) ∧
    (env.get "API_HOST" = some "azure" →
      env.get "AZURE_OPENAI_ENDPOINT" = some ep →
      env.get "AZURE_OPENAI_CHAT_DEPLOYMENT" = none →
      setupClient env = Except.error "KeyError: AZURE_OPENAI_CHAT_DEPLOYMENT") ∧
    (env.get "API_HOST" = some "ollama" →
      env.get "OLLAMA_ENDPOINT" = some ep →
      env.get "OLLAMA_MODEL" = none →
      setupClient env = Except.error "KeyError: OLLAMA_MODEL") ∧
    (∀ v, env.get "API_HOST" = some v →
      v ≠ "azure" → v ≠ "ollama" → v ≠ "github" →
      env.get "OPENAI_KEY" = some key →
      env.get "OPENAI_MODEL" = none →
      setupClient env = Except.error "KeyError: OPENAI_MODEL") := by
  refine ⟨?_, ?_, ?_, ?_, ?_⟩
  · intro h1
    simp [apiHostOf, Env.getD, h1]
  · intro h1 h2 h3
    simp [setupClient, apiHostOf, Env.getD, Env.require, h1, h2, h3]
  · intro h1 h2 h3
    simp [setupClient, apiHostOf, Env.getD, Env.require, h1, h2, h3]
    rfl
  · intro h1 h2 h3
    simp [setupClient, apiHostOf, Env.getD, Env.require, h1, h2, h3]
    rfl
  · intro v h1 hv1 hv2 hv3 h2 h3
    simp [setupClient, apiHostOf, Env.getD, Env.require, h1, h2, h3, hv1, hv2, hv3]
    rfl

/-- Witness for C8 at concrete environments. -/
theorem c8_defaults_witness :
    apiHostOf [("GITHUB_TOKEN", "tok123")] = "github" ∧
    setupClient [("GITHUB_TOKEN", "tok123")] = Except.ok
      { baseUrl := some githubBaseUrl, credential := Credential.apiKey "tok123",
        modelName := "openai/gpt-4o" } ∧
    setupClient [("API_HOST", "azure"), ("AZURE_OPENAI_ENDPOINT", "https://aoai.example")]
      = Except.error "KeyError: AZURE_OPENAI_CHAT_DEPLOYMENT" ∧
    setupClient [("API_HOST", "ollama"), ("OLLAMA_ENDPOINT", "http://localhost:11434/v1")]
      = Except.error "KeyError: OLLAMA_MODEL" ∧
    setupClient [("API_HOST", "local"), ("OPENAI_KEY", "sk-xyz")]
      = Except.error "KeyError: OPENAI_MODEL" := by
  refine ⟨?_, ?_, ?_, ?_, ?_⟩
  · exact (c8_defaults [("GITHUB_TOKEN", "tok123")] "" "" "").1 rfl
  · exact (c8_defaults [("GITHUB_TOKEN", "tok123")] "tok123" "" "").2.1 rfl rfl rfl
  · exact (c8_defaults [("API_HOST", "azure"),
      ("AZURE_OPENAI_ENDPOINT", "https://aoai.example")] "" "https://aoai.example" "").2.2.1
      rfl rfl rfl
  · exact (c8_defaults [("API_HOST", "ollama"),
      ("OLLAMA_ENDPOINT", "http://localhost:11434/v1")] "" "http://localhost:11434/v1"
      "").2.2.2.1 rfl rfl rfl
  · exact (c8_defaults [("API_HOST", "local"), ("OPENAI_KEY", "sk-xyz")] "" ""
      "sk-xyz").2.2.2.2 "local" rfl (by decide) (by decide) (by decide) rfl rfl

/-! Section: Loop request log lemmas -/

/-- The loop only ever appends to the request log. -/
theorem runLoop_requests_mono (oracle : Oracle) (inputs : List String) :
    ∀ st : ModuleState, ∃ tail,
      (runLoop oracle inputs st).state.requests = st.requests ++ tail := by
  induction inputs with
  | nil =>
    intro st
    exact ⟨[], by simp [runLoop]⟩
  | cons line rest ih =>
    intro st
    obtain ⟨cl, mn, hist, reqs, pr⟩ := st
    cases cl with
    | none =>
      simp only [runLoop]
      split
      · exact ⟨[], (List.append_nil _).symm⟩
      · exact ⟨[], (List.append_nil _).symm⟩
    | some cfg =>
      cases mn with
      | none =>
        simp only [runLoop]
        split
        · exact ⟨[], (List.append_nil _).symm⟩
        · exact ⟨[], (List.append_nil _).symm⟩
      | some m =>
        simp only [runLoop]
        split
        · exact ⟨[], (List.append_nil _).symm⟩
        · cases ho : oracle (mkLoopRequest m (hist ++ [userMsg (pyStrip line)])) with
          | ok reply =>
            obtain ⟨t, ht⟩ := ih
              { client := some cfg, modelName := some m,
                history := (hist ++ [userMsg (pyStrip line)]) ++ [assistantMsg reply],
                requests := reqs ++ [mkLoopRequest m (hist ++ [userMsg (pyStrip line)])],
                printed := pr ++ ["bot> " ++ reply] }
            refine ⟨mkLoopRequest m (hist ++ [userMsg (pyStrip line)]) :: t, ?_⟩
            rw [ht]
            simp
          | error e =>
            exact ⟨[mkLoopRequest m (hist ++ [userMsg (pyStrip line)])], rfl⟩

/-- The shape the spec ascribes to the sequence of requests the loop
issues from a given starting history: each request carries the fixed
system message followed by the whole accumulated history (every earlier
user/assistant pair in order, then the current user message), and each
later request extends the earlier ones. -/
inductive FullHistoryTrace (m : String) : List Message → List Request → Prop where
  | nil (h : List Message) : FullHistoryTrace m h []
  | step (h : List Message) (u reply : String) (reqs : List Request)
      (htail : FullHistoryTrace m (h ++ [userMsg u, assistantMsg reply]) reqs) :
      FullHistoryTrace m h (mkLoopRequest m (h ++ [userMsg u]) :: reqs)

/-- The requests the loop appends form a full-history trace. -/
theorem runLoop_trace (oracle : Oracle) (inputs : List String) :
    ∀ (st : ModuleState) (m : String), st.modelName = some m → st.client.isSome = true →
      ∃ reqs, (runLoop oracle inputs st).state.requests = st.requests ++ reqs ∧
        FullHistoryTrace m st.history reqs := by
  induction inputs with
  | nil =>
    intro st m _ _
    exact ⟨[], by simp [runLoop], FullHistoryTrace.nil _⟩
  | cons line rest ih =>
    intro st m hm hc
    obtain ⟨cl, mn, hist, reqs, pr⟩ := st
    obtain rfl : mn = some m := hm
    cases cl with
    | none => exact Bool.noConfusion hc
    | some cfg =>
      simp only [runLoop]
      split
      · exact ⟨[], (List.append_nil _).symm, FullHistoryTrace.nil _⟩
      · cases ho : oracle (mkLoopRequest m (hist ++ [userMsg (pyStrip line)])) with
        | ok reply =>
          obtain ⟨reqs2, heq, htr⟩ := ih
            { client := some cfg, modelName := some m,
              history := (hist ++ [userMsg (pyStrip line)]) ++ [assistantMsg reply],
              requests := reqs ++ [mkLoopRequest m (hist ++ [userMsg (pyStrip line)])],
              printed := pr ++ ["bot> " ++ reply] } m rfl rfl
          refine ⟨mkLoopRequest m (hist ++ [userMsg (pyStrip line)]) :: reqs2, ?_, ?_⟩
          · rw [heq]
            simp
          · exact FullHistoryTrace.step hist (pyStrip line) reply reqs2
              (by simpa [List.append_assoc] using htr)
        | error e =>
          refine ⟨[mkLoopRequest m (hist ++ [userMsg (pyStrip line)])], rfl, ?_⟩
          exact FullHistoryTrace.step hist (pyStrip line) "" []
            (FullHistoryTrace.nil _)

/-- Claim C3: on every turn of the interactive loop the request sent is
exactly the fixed system message followed by the entire accumulated
history, in append order, with nothing dropped, truncated or reordered. -/
theorem c3_requests_replay_full_history (oracle : Oracle) (inputs : List String)
    (st : ModuleState) (m : String)
    (hm : st.modelName = some m) (hc : st.client.isSome = true)
    (hr : st.requests = []) :
    FullHistoryTrace m st.history (runLoop oracle inputs st).state.requests := by
  obtain ⟨reqs, heq, htr⟩ := runLoop_trace oracle inputs st m hm hc
  rw [heq, hr]
  simpa using htr

/-- Witness for C3: a concrete two-turn session. -/
theorem c3_requests_replay_full_history_witness :
    FullHistoryTrace "mymodel" readyState.history
      (runLoop okOracle ["hi", "how are you", "exit"] readyState).state.requests :=
  c3_requests_replay_full_history okOracle ["hi", "how are you", "exit"] readyState
    "mymodel" rfl rfl rfl

/-- Claim C9: the loop breaks exactly on inputs whose stripped, lowered
form is "exit" or "quit" — leaving state untouched and sending nothing —
and on any other input (the empty string included) it sends a request for
that turn and, when the endpoint answers, continues with the updated
history. -/
theorem c9_exit_check (st : ModuleState) (cfg : ProviderConfig) (m u : String)
    (rest : List String) (oracle : Oracle)
    (hc : st.client = some cfg) (hm : st.modelName = some m) :
    ((pyLower (pyStrip u) = "exit" ∨ pyLower (pyStrip u) = "quit") →
      runLoop oracle (u :: rest) st = { state := st, error := none }) ∧
    (¬ (pyLower (pyStrip u) = "exit" ∨ pyLower (pyStrip u) = "quit") →
      ∃ tail, (runLoop oracle (u :: rest) st).state.requests =
        st.requests ++ mkLoopRequest m (st.history ++ [userMsg (pyStrip u)]) :: tail) ∧
    (¬ (pyLower (pyStrip u) = "exit" ∨ pyLower (pyStrip u) = "quit") →
      ∀ reply, oracle (mkLoopRequest m (st.history ++ [userMsg (pyStrip u)])) = Except.ok reply →
        runLoop oracle (u :: rest) st = runLoop oracle rest
          { st with history := (st.history ++ [userMsg (pyStrip u)]) ++ [assistantMsg reply],
                    requests := st.requests ++ [mkLoopRequest m (st.history ++ [userMsg (pyStrip u)])],
                    printed := st.printed ++ ["bot> " ++ reply] }) := by
  obtain ⟨cl, mn, hist, reqs, pr⟩ := st
  obtain rfl : cl = some cfg := hc
  obtain rfl : mn = some m := hm
  refine ⟨?_, ?_, ?_⟩
  · intro hex
    simp only [runLoop]
    rw [if_pos hex]
  · intro hne
    simp only [runLoop]
    rw [if_neg hne]
    cases ho : oracle (mkLoopRequest m (hist ++ [userMsg (pyStrip u)])) with
    | ok reply =>
      obtain ⟨t, ht⟩ := runLoop_requests_mono oracle rest
        { client := some cfg, modelName := some m,
          history := (hist ++ [userMsg (pyStrip u)]) ++ [assistantMsg reply],
          requests := reqs ++ [mkLoopRequest m (hist ++ [userMsg (pyStrip u)])],
          printed := pr ++ ["bot> " ++ reply] }
      refine ⟨t, ?_⟩
      rw [ht]
      simp
    | error e => exact ⟨[], rfl⟩
  · intro hne reply ho
    simp only [runLoop]
    rw [if_neg hne, ho]

/-- Witness for C9: a quit input (after stripping and lowering) leaves
the state untouched, and the empty input sends a request. -/
theorem c9_exit_check_witness :
    runLoop okOracle [" QUIT "] readyState = { state := readyState, error := none } ∧
    ∃ tail, (runLoop okOracle ["", "exit"] readyState).state.requests =
      readyState.requests ++
        mkLoopRequest "mymodel" (readyState.history ++ [userMsg (pyStrip "")]) :: tail := by
  constructor
  · exact (c9_exit_check readyState cfgStub "mymodel" " QUIT " [] okOracle rfl rfl).1
      (by decide)
  · exact (c9_exit_check readyState cfgStub "mymodel" "" ["exit"] okOracle rfl rfl).2.1
      (by decide)

/-- Claim C5 counterexample: when the first request of a turn fails, the
failure is surfaced and nothing is retried, but the history HAS been
modified by the failing turn — the user message was appended before the
call — contradicting the claim that no message from that turn is
retained. -/
theorem c5_counterexample_history_modified_on_failure :
    (runLoop failOracle ["hi"] readyState).error = some "APIConnectionError" ∧
    (runLoop failOracle ["hi"] readyState).state.requests.length = 1 ∧
    (runLoop failOracle ["hi"] readyState).state.history ≠ readyState.history := by
  refine ⟨rfl, rfl, by decide⟩

/-- Claim C5 as amended: if the endpoint fails on a turn, exactly that
one request was attempted (no retry, no backoff, the remaining input is
never read), the error is surfaced and the run stops; the user message of
the failing turn has already been appended to the history — and no
assistant message of that turn is. -/
theorem c5_no_retry_failure_surfaced (oracle : Oracle) (st : ModuleState)
    (cfg : ProviderConfig) (m u e : String) (rest : List String)
    (hc : st.client = some cfg) (hm : st.modelName = some m)
    (hne : ¬ (pyLower (pyStrip u) = "exit" ∨ pyLower (pyStrip u) = "quit"))
    (hfail : oracle (mkLoopRequest m (st.history ++ [userMsg (pyStrip u)])) =
      Except.error e) :
    runLoop oracle (u :: rest) st =
      { state := { st with
          history := st.history ++ [userMsg (pyStrip u)],
          requests := st.requests ++
            [mkLoopRequest m (st.history ++ [userMsg (pyStrip u)])] },
        error := some e } := by
  obtain ⟨cl, mn, hist, reqs, pr⟩ := st
  obtain rfl : cl = some cfg := hc
  obtain rfl : mn = some m := hm
  simp only [runLoop]
  rw [if_neg hne, hfail]

/-- Witness for the amended C5 at a concrete failing run. -/
theorem c5_no_retry_failure_surfaced_witness :
    runLoop failOracle ["hi", "ignored"] readyState =
      { state := { readyState with
          history := readyState.history ++ [userMsg (pyStrip "hi")],
          requests := readyState.requests ++
            [mkLoopRequest "mymodel" (readyState.history ++ [userMsg (pyStrip "hi")])] },
        error := some "APIConnectionError" } :=
  c5_no_retry_failure_surfaced failOracle readyState cfgStub "mymodel" "hi"
    "APIConnectionError" ["ignored"] rfl rfl (by decide) rfl

/-! Section: History alternation -/

/-- Histories made of complete user/assistant turn pairs, in order. -/
inductive UserAssistantPairs : List Message → Prop where
  | nil : UserAssistantPairs []
  | pair (u a : String) (t : List Message) (ht : UserAssistantPairs t) :
      UserAssistantPairs (userMsg u :: assistantMsg a :: t)

theorem userAssistantPairs_append {h : List Message} (hp : UserAssistantPairs h)
    (u a : String) :
    UserAssistantPairs (h ++ [userMsg u, assistantMsg a]) := by
  induction hp with
  | nil => exact UserAssistantPairs.pair u a [] UserAssistantPairs.nil
  | pair u2 a2 t ht ih => exact UserAssistantPairs.pair u2 a2 _ ih

theorem userAssistantPairs_even_roles {h : List Message}
    (hp : UserAssistantPairs h) :
    h.length % 2 = 0 ∧
    ∀ (i : Nat) (hi : i < h.length),
      (h.get ⟨i, hi⟩).role = if i % 2 = 0 then "user" else "assistant" := by
  induction hp with
  | nil =>
    refine ⟨rfl, ?_⟩
    intro i hi
    simp at hi
  | pair u a t ht ih =>
    refine ⟨?_, ?_⟩
    · have h1 := ih.1
      simp only [List.length_cons]
      omega
    · intro i hi
      rcases i with _ | (_ | j)
      · rfl
      · rfl
      · have hj : j < t.length := by
          simp only [List.length_cons] at hi
          omega
        have hrec := ih.2 j hj
        have hget : ((userMsg u :: assistantMsg a :: t).get ⟨j + 2, hi⟩) =
            t.get ⟨j, hj⟩ := rfl
        rw [hget, hrec]
        have hmod : (j + 2) % 2 = j % 2 := Nat.add_mod_right j 2
        rw [hmod]

/-- Completing iterations of the loop preserves the pairs invariant. -/
theorem runLoop_pairs (oracle : Oracle) (inputs : List String) :
    ∀ st : ModuleState, UserAssistantPairs st.history →
      (runLoop oracle inputs st).error = none →
      UserAssistantPairs (runLoop oracle inputs st).state.history := by
  induction inputs with
  | nil =>
    intro st hp hdone
    simp [runLoop] at hdone
  | cons line rest ih =>
    intro st hp hdone
    obtain ⟨cl, mn, hist, reqs, pr⟩ := st
    by_cases hex : pyLower (pyStrip line) = "exit" ∨ pyLower (pyStrip line) = "quit"
    · simp only [runLoop, if_pos hex]
      exact hp
    · cases cl with
      | none =>
        simp only [runLoop, if_neg hex] at hdone
        cases hdone
      | some cfg =>
        cases mn with
        | none =>
          simp only [runLoop, if_neg hex] at hdone
          cases hdone
        | some m =>
          cases ho : oracle (mkLoopRequest m (hist ++ [userMsg (pyStrip line)])) with
          | ok reply =>
            have hstep : runLoop oracle (line :: rest)
                { client := some cfg, modelName := some m, history := hist,
                  requests := reqs, printed := pr } =
                runLoop oracle rest
                { client := some cfg, modelName := some m,
                  history := (hist ++ [userMsg (pyStrip line)]) ++ [assistantMsg reply],
                  requests := reqs ++ [mkLoopRequest m (hist ++ [userMsg (pyStrip line)])],
                  printed := pr ++ ["bot> " ++ reply] } := by
              simp only [runLoop, if_neg hex, ho]
            rw [hstep] at hdone ⊢
            refine ih _ ?_ hdone
            have hpp : UserAssistantPairs
                (hist ++ [userMsg (pyStrip line), assistantMsg reply]) :=
              userAssistantPairs_append hp (pyStrip line) reply
            simpa [List.append_assoc] using hpp
          | error e =>
            simp only [runLoop, if_neg hex, ho] at hdone
            cases hdone

/-- Claim C10: whenever the loop exits normally, the history consists of
complete user/assistant pairs: it has even length and the message at each
even index is a user message, at each odd index an assistant message. -/
theorem c10_history_alternates (oracle : Oracle) (inputs : List String)
    (st : ModuleState) (hp : UserAssistantPairs st.history)
    (hdone : (runLoop oracle inputs st).error = none) :
    UserAssistantPairs (runLoop oracle inputs st).state.history ∧
    (runLoop oracle inputs st).state.history.length % 2 = 0 ∧
    ∀ (i : Nat) (hi : i < (runLoop oracle inputs st).state.history.length),
      ((runLoop oracle inputs st).state.history.get ⟨i, hi⟩).role =
        if i % 2 = 0 then "user" else "assistant" := by
  have h1 := runLoop_pairs oracle inputs st hp hdone
  exact ⟨h1, (userAssistantPairs_even_roles h1).1, (userAssistantPairs_even_roles h1).2⟩

/-- Witness for C10: a concrete two-turn session ending in "exit". -/
theorem c10_history_alternates_witness :
    UserAssistantPairs (runLoop okOracle ["hi", "more", "exit"] readyState).state.history ∧
    (runLoop okOracle ["hi", "more", "exit"] readyState).state.history.length % 2 = 0 ∧
    ∀ (i : Nat)
      (hi : i < (runLoop okOracle ["hi", "more", "exit"] readyState).state.history.length),
      ((runLoop okOracle ["hi", "more", "exit"] readyState).state.history.get ⟨i, hi⟩).role =
        if i % 2 = 0 then "user" else "assistant" :=
  c10_history_alternates okOracle ["hi", "more", "exit"] readyState
    UserAssistantPairs.nil rfl

/-! Section: Message roles -/

/-- The roles the data model allows. -/
def validRole (msg : Message) : Prop :=
  msg.role = "system" ∨ msg.role = "user" ∨ msg.role = "assistant"

/-- Every message in the history and in every issued request has a valid
role. -/
def rolesOk (st : ModuleState) : Prop :=
  (∀ msg ∈ st.history, validRole msg) ∧
  (∀ req ∈ st.requests, ∀ msg ∈ req.messages, validRole msg)

theorem runLoop_rolesOk (oracle : Oracle) (inputs : List String) :
    ∀ st : ModuleState, rolesOk st → rolesOk (runLoop oracle inputs st).state := by
  induction inputs with
  | nil =>
    intro st h
    exact h
  | cons line rest ih =>
    intro st h
    obtain ⟨cl, mn, hist, reqs, pr⟩ := st
    by_cases hex : pyLower (pyStrip line) = "exit" ∨ pyLower (pyStrip line) = "quit"
    · simp only [runLoop, if_pos hex]
      exact h
    · have hhist2 : ∀ msg ∈ hist ++ [userMsg (pyStrip line)], validRole msg := by
        intro msg hmem
        rcases List.mem_append.mp hmem with h1 | h1
        · exact h.1 msg h1
        · have h2 := List.mem_singleton.mp h1
          subst h2
          exact Or.inr (Or.inl rfl)
      have hreq : ∀ msg ∈ (mkLoopRequest "" (hist ++ [userMsg (pyStrip line)])).messages,
          validRole msg := by
        intro msg hmem
        rcases List.mem_cons.mp hmem with h2 | h2
        · subst h2
          exact Or.inl rfl
        · exact hhist2 msg h2
      cases cl with
      | none =>
        simp only [runLoop, if_neg hex]
        exact ⟨hhist2, h.2⟩
      | some cfg =>
        cases mn with
        | none =>
          simp only [runLoop, if_neg hex]
          exact ⟨hhist2, h.2⟩
        | some m =>
          have hreqm : ∀ msg ∈ (mkLoopRequest m (hist ++ [userMsg (pyStrip line)])).messages,
              validRole msg := hreq
          cases ho : oracle (mkLoopRequest m (hist ++ [userMsg (pyStrip line)])) with
          | ok reply =>
            have hstep : runLoop oracle (line :: rest)
                { client := some cfg, modelName := some m, history := hist,
                  requests := reqs, printed := pr } =
                runLoop oracle rest
                { client := some cfg, modelName := some m,
                  history := (hist ++ [userMsg (pyStrip line)]) ++ [assistantMsg reply],
                  requests := reqs ++ [mkLoopRequest m (hist ++ [userMsg (pyStrip line)])],
                  printed := pr ++ ["bot> " ++ reply] } := by
              simp only [runLoop, if_neg hex, ho]
            rw [hstep]
            refine ih _ ⟨?_, ?_⟩
            · intro msg hmem
              rcases List.mem_append.mp hmem with h1 | h1
              · exact hhist2 msg h1
              · have h2 := List.mem_singleton.mp h1
                subst h2
                exact Or.inr (Or.inr rfl)
            · intro req hreqmem msg hmem
              rcases List.mem_append.mp hreqmem with h1 | h1
              · exact h.2 req h1 msg hmem
              · have h2 := List.mem_singleton.mp h1
                subst h2
                exact hreqm msg hmem
          | error e =>
            simp only [runLoop, if_neg hex, ho]
            refine ⟨hhist2, ?_⟩
            intro req hreqmem msg hmem
            rcases List.mem_append.mp hreqmem with h1 | h1
            · exact h.2 req h1 msg hmem
            · have h2 := List.mem_singleton.mp h1
              subst h2
              exact hreqm msg hmem

/-- The module run as a whole preserves role validity, the one-shot
request included. -/
theorem runModule_rolesOk (env : Env) (inputs : List String) (oracle : Oracle) :
    rolesOk (runModule env inputs oracle).state := by
  have hinit : rolesOk initState := ⟨by simp [initState], by simp [initState]⟩
  have hloop := runLoop_rolesOk oracle inputs initState hinit
  have honeshot : ∀ mdl, ∀ msg ∈ (oneShotRequest mdl).messages, validRole msg := by
    intro mdl msg hmem
    rcases List.mem_cons.mp hmem with h2 | h2
    · subst h2
      exact Or.inl rfl
    · rcases List.mem_cons.mp h2 with h3 | h3
      · subst h3
        exact Or.inr (Or.inl rfl)
      · simp at h3
  cases hres : (runLoop oracle inputs initState).error with
  | some e =>
    simp only [runModule, hres]
    exact hloop
  | none =>
    cases hsetup : setupClient env with
    | error e =>
      simp only [runModule, hres, hsetup]
      exact hloop
    | ok cfg =>
      cases horc : oracle (oneShotRequest cfg.modelName) with
      | ok reply =>
        simp only [runModule, hres, hsetup, horc]
        refine ⟨hloop.1, ?_⟩
        intro req hreqmem msg hmem
        rcases List.mem_append.mp hreqmem with h1 | h1
        · exact hloop.2 req h1 msg hmem
        · have h2 := List.mem_singleton.mp h1
          subst h2
          exact honeshot cfg.modelName msg hmem
      | error e =>
        simp only [runModule, hres, hsetup, horc]
        refine ⟨hloop.1, ?_⟩
        intro req hreqmem msg hmem
        rcases List.mem_append.mp hreqmem with h1 | h1
        · exact hloop.2 req h1 msg hmem
        · have h2 := List.mem_singleton.mp h1
          subst h2
          exact honeshot cfg.modelName msg hmem

/-- Claim C7: every message the program constructs — in the interactive
history, in every loop request and in the one-shot request — has a role
equal to "system", "user" or "assistant"; no other role appears in any
request. -/
theorem c7_all_roles_valid (env : Env) (inputs : List String) (oracle : Oracle) :
    (∀ msg ∈ (runModule env inputs oracle).state.history, validRole msg) ∧
    (∀ req ∈ (runModule env inputs oracle).state.requests,
      ∀ msg ∈ req.messages, validRole msg) :=
  runModule_rolesOk env inputs oracle

/-- Witness for C7 on a concrete run: the one-shot system message of the
single issued request has a valid role. -/
theorem c7_all_roles_valid_witness : validRole oneShotSystemMsg :=
  (c7_all_roles_valid envGithubFull ["exit"] okOracle).2
    (oneShotRequest "openai/gpt-4o-mini")
    (by
      rw [show (runModule envGithubFull ["exit"] okOracle).state.requests =
        [oneShotRequest "openai/gpt-4o-mini"] from rfl]
      exact List.mem_singleton.mpr rfl)
    oneShotSystemMsg (List.mem_cons_self _ _)

/-- Claim C6: when execution reaches it, the one-shot demonstration sends
a single request with exactly the hard-coded system and cat-haiku user
messages, temperature 0.7 and n=1 — whatever the console input and the
rest of the environment — and prints the first choice content of the
reply. -/
theorem c6_one_shot_hard_coded (env : Env) (u : String) (rest : List String)
    (oracle : Oracle) (cfg : ProviderConfig) (reply : String)
    (hexit : pyLower (pyStrip u) = "exit" ∨ pyLower (pyStrip u) = "quit")
    (hsetup : setupClient env = Except.ok cfg)
    (hok : oracle (oneShotRequest cfg.modelName) = Except.ok reply) :
    (runModule env (u :: rest) oracle).state.requests =
      [{ model := cfg.modelName, temperature := some (7 / 10 : Rat), n := some 1,
         messages :=
           [{ role := "system",
              content := "You are a helpful assistant that makes lots of cat references and uses emojis." },
            { role := "user",
              content := "Write a haiku about a hungry cat who wants tuna" }] }] ∧
    (runModule env (u :: rest) oracle).state.printed =
      ["Response from " ++ apiHostOf env ++ ": \n", reply] ∧
    (runModule env (u :: rest) oracle).error = none := by
  have hloop : runLoop oracle (u :: rest) initState =
      { state := initState, error := none } := by
    simp only [runLoop, if_pos hexit]
  simp only [runModule, hloop, hsetup, hok]
  refine ⟨?_, ?_, ?_⟩ <;> trivial

def cfgGithubEnvFull : ProviderConfig :=
  { baseUrl := some githubBaseUrl, credential := Credential.apiKey "tok123",
    modelName := "openai/gpt-4o-mini" }

/-- Witness for C6 at a concrete run. -/
theorem c6_one_shot_hard_coded_witness :
    (runModule envGithubFull ["exit"] okOracle).state.requests =
      [{ model := cfgGithubEnvFull.modelName, temperature := some (7 / 10 : Rat),
         n := some 1,
         messages :=
           [{ role := "system",
              content := "You are a helpful assistant that makes lots of cat references and uses emojis." },
            { role := "user",
              content := "Write a haiku about a hungry cat who wants tuna" }] }] ∧
    (runModule envGithubFull ["exit"] okOracle).state.printed =
      ["Response from " ++ apiHostOf envGithubFull ++ ": \n", "meow"] ∧
    (runModule envGithubFull ["exit"] okOracle).error = none :=
  c6_one_shot_hard_coded envGithubFull "exit" [] okOracle cfgGithubEnvFull "meow"
    (Or.inl rfl) rfl rfl
